import Mathlib

/-!
Verification of the collection synchronizer and calibration-record assembler
of `interactive_calibration` (file
`src/interactive_calibration/data_collector_and_labeler.py`, class
`DataCollectorAndLabeler`).

Shallow embedding conventions:
* ROS timestamps are modelled as natural numbers (a timestamp is a single
  monotone quantity; only ordering and differences matter to the code).
* Python dictionaries are modelled as association lists with insert-or-update
  semantics (`dictInsert`), preserving insertion order as Python dicts do.
* The `TransformListener` is modelled as an explicit lookup function passed in
  as a parameter; a lookup that would raise a `tf` exception returns `none`.
* Exceptions raised by the Python code are modelled with `Except String`.
* The helpers `getMaxTimeDelta` and `getMaxTime` live in a `utilities` module
  that is not part of the repository snapshot; they are modelled from the
  spec where noted.
-/

namespace InteractiveCalibration

/-- Association-list update with Python-dict semantics: if the key is present
the binding is updated in place, otherwise the pair is appended at the end. -/
def dictInsert {κ α : Type} [DecidableEq κ] : List (κ × α) → κ → α → List (κ × α)
  | [], k, v => [(k, v)]
  | (k', v') :: rest, k, v =>
    if k' = k then (k, v) :: rest else (k', v') :: dictInsert rest k v

/-- Association-list deletion: removes the binding of `k`, if any.  Python's
`del d[k]` raises on a missing key; in the one place the code deletes a key
(the `data` field of an Image message) the key is always present, so the
total remove-if-present function is a faithful model there. -/
def dictErase {κ α : Type} [DecidableEq κ] : List (κ × α) → κ → List (κ × α)
  | [], _ => []
  | (k', v') :: rest, k =>
    if k' = k then rest else (k', v') :: dictErase rest k

/-- The keys of an association list, in order. -/
def dictKeys {κ α : Type} (d : List (κ × α)) : List κ :=
  d.map Prod.fst

/-- Association-list lookup, first binding wins (bindings are unique by
construction of `dictInsert`). -/
def dictFind {κ α : Type} [DecidableEq κ] : List (κ × α) → κ → Option α
  | [], _ => none
  | (k', v') :: rest, k => if k' = k then some v' else dictFind rest k

/-- Embeds `DataCollectorAndLabeler.generateKey(parent, child, suffix='')`:
`return parent + '-' + child + suffix`.  The `suffix` default is the empty
string and every call site in the repository omits it, so it is dropped
here. -/
def generateKey (parent child : String) : String :=
  parent ++ "-" ++ child

/-- One abstract transform record `{'parent': ..., 'child': ..., 'key': ...}`
as built by `__init__` (chain discovery) and `getAllAbstractTransforms`. -/
structure TransformEdge where
  parent : String
  child : String
  key : String
deriving DecidableEq, Repr

/-- One resolved transform `{'trans': ..., 'quat': ..., 'parent': ...,
'child': ...}` as stored by `getTransforms`.  Translation and quaternion
components are opaque to the synchronizer; they are modelled as integer
lists. -/
structure TransEntry where
  trans : List Int
  quat : List Int
  parent : String
  child : String
deriving DecidableEq, Repr

/-- A transform-graph lookup: given parent frame, child frame and a time,
returns `(trans, quat)` or `none` when `waitForTransform` /
`lookupTransform` would raise a `tf` exception. -/
def TfLookup : Type :=
  String → String → Nat → Option (List Int × List Int)

/-- Worker loop of `DataCollectorAndLabeler.getTransforms`: iterates the
abstract transforms in order, resolving each at the given time and inserting
the result into the dictionary under `generateKey(parent, child)`.  A failed
resolution raises (the code calls `waitForTransform` / `lookupTransform`
with no `try`), modelled as `Except.error`. -/
def getTransformsAux (look : TfLookup) (t : Nat) :
    List TransformEdge → List (String × TransEntry) →
    Except String (List (String × TransEntry))
  | [], acc => .ok acc
  | ab :: rest, acc =>
    match look ab.parent ab.child t with
    | none => .error ("tf exception looking up " ++ generateKey ab.parent ab.child)
    | some tq =>
      getTransformsAux look t rest
        (dictInsert acc (generateKey ab.parent ab.child)
          ⟨tq.1, tq.2, ab.parent, ab.child⟩)

/-- Embeds `DataCollectorAndLabeler.getTransforms(abstract_transforms, time)`.
The `time=None` branch (fall back to `rospy.Time.now()`) is never taken by
the repository: `saveCollection` always passes a time, so the time is a
required argument here. -/
def getTransforms (look : TfLookup) (t : Nat)
    (abstract_transforms : List TransformEdge) :
    Except String (List (String × TransEntry)) :=
  getTransformsAux look t abstract_transforms []

/-- Modelled from the spec: `getMaxTimeDelta` from the absent `utilities`
module.  "Compute `maxDelta` = (max timestamp − min timestamp) across
sensors; if only one sensor exists, `maxDelta` is undefined" — undefined is
rendered as `none`, matching the `if max_delta is not None` guard in
`saveCollection`. -/
def getMaxTimeDelta (stamps : List Nat) : Option Nat :=
  if stamps.length < 2 then none
  else some (stamps.foldl max 0 - stamps.foldl min (stamps.headD 0))

/-- Modelled from the spec: `getMaxTime` from the absent `utilities` module.
"Compute a representative `captureTime` as the maximum of all timestamps". -/
def getMaxTime (stamps : List Nat) : Nat :=
  stamps.foldl max 0

/-- A sensor message as held by a labeler: a timestamp (`msg.header.stamp`)
plus the dictionary form produced by
`message_converter.convert_ros_message_to_dictionary` (field name to opaque
value; for Image messages this includes the raw pixel field `data`). -/
structure RosMsg where
  stamp : Nat
  fields : List (String × String)
deriving DecidableEq, Repr

/-- Embeds `message_converter.convert_ros_message_to_dictionary` at the
interface boundary: the dictionary form of the message. -/
def convertRosMessageToDictionary (m : RosMsg) : List (String × String) :=
  m.fields

/-- The snapshot of one `InteractiveDataLabeler` (external collaborator,
modelled at its interface boundary, section 6 of the spec): its lock state,
the most recently received message, and the current labels. -/
structure LabelerSnapshot where
  locked : Bool
  msg : RosMsg
  labels : List String
deriving DecidableEq, Repr

/-- One configured sensor together with its labeler: the sensor dictionary
entry (`self.sensors[name]`, here only the fields `saveCollection` reads:
`_name` and `msg_type`) paired with `self.sensor_labelers[name]`.  The two
Python dicts share their keys, so a single paired list models both. -/
structure SensorUnit where
  name : String
  msg_type : String
  labeler : LabelerSnapshot
deriving DecidableEq, Repr

/-- One collection record `{'data': ..., 'labels': ..., 'transforms': ...}`. -/
structure Collection where
  data : List (String × List (String × String))
  labels : List (String × List String)
  transforms : List (String × TransEntry)
deriving DecidableEq, Repr

/-- The mutable state of a `DataCollectorAndLabeler` that `saveCollection`
touches: the sensors with their labelers, `self.data_stamp`,
`self.collections`, `self.abstract_transforms`, the configured threshold
`self.config['max_duration_bekween_msgs']` (sic) and
`self.output_folder`. -/
structure CollectorState where
  units : List SensorUnit
  data_stamp : Nat
  collections : List (Nat × Collection)
  abstract_transforms : List TransformEdge
  max_duration_bekween_msgs : Nat
  output_folder : String
deriving DecidableEq, Repr

/-- Embeds `lockAllLabelers`: acquires every labeler's lock. -/
def lockAllLabelers (s : CollectorState) : CollectorState :=
  { s with units := s.units.map fun u => { u with labeler := { u.labeler with locked := true } } }

/-- Embeds `unlockAllLabelers`: releases every labeler's lock. -/
def unlockAllLabelers (s : CollectorState) : CollectorState :=
  { s with units := s.units.map fun u => { u with labeler := { u.labeler with locked := false } } }

/-- Embeds `getLabelersTimeStatistics`: deep-copies each labeler message's
timestamp and returns `(stamps, average_time, max_delta)` where, per the
code, `average_time = getMaxTime(stamps)` (the `getAverageTime` call is
commented out) and `max_delta = getMaxTimeDelta(stamps)`. -/
def getLabelersTimeStatistics (units : List SensorUnit) :
    List Nat × Nat × Option Nat :=
  let stamps := units.map fun u => u.labeler.msg.stamp
  (stamps, getMaxTime stamps, getMaxTimeDelta stamps)

/-- The list of message kinds accepted by the label-update branch of
`saveCollection`: `['Image', 'LaserScan', 'PointCloud2']`. -/
def acceptedMsgTypes : List String :=
  ["Image", "LaserScan", "PointCloud2"]

/-- The per-sensor data entry built in `saveCollection`'s payload loop,
together with the list of image files written to disk.  For `msg_type ==
'Image'` the message dictionary has its `data` field deleted and a
`data_file` field set to the relative filename
`<sensor_name>_<data_stamp>.jpg`, and the image is written to
`<output_folder>/<sensor_name>_<data_stamp>.jpg`; any other kind inlines
the full message dictionary. -/
def sensorDataEntry (output_folder : String) (stamp : Nat) (u : SensorUnit) :
    List (String × String) × List String :=
  if u.msg_type = "Image" then
    let filename := output_folder ++ "/" ++ u.name ++ "_" ++ toString stamp ++ ".jpg"
    let filename_relative := u.name ++ "_" ++ toString stamp ++ ".jpg"
    let image_dict := dictErase (convertRosMessageToDictionary u.labeler.msg) "data"
    (dictInsert image_dict "data_file" filename_relative, [filename])
  else
    (convertRosMessageToDictionary u.labeler.msg, [])

/-- Worker loop of `saveCollection`'s payload assembly (`for sensor_name,
sensor in self.sensors.iteritems()`): per sensor, deep-copy message and
labels, update `all_sensor_data_dict`, then update
`all_sensor_labels_dict` when the kind is accepted and `raise
ValueError('Unknown message type.')` otherwise.  Accumulators carry the two
dictionaries and the written image files. -/
def assemblePayloadAux (output_folder : String) (stamp : Nat) :
    List SensorUnit →
    List (String × List (String × String)) →
    List (String × List String) →
    List String →
    Except String
      (List (String × List (String × String)) ×
       List (String × List String) × List String)
  | [], dataAcc, labelsAcc, fileAcc => .ok (dataAcc, labelsAcc, fileAcc)
  | u :: rest, dataAcc, labelsAcc, fileAcc =>
    let entry := sensorDataEntry output_folder stamp u
    let dataAcc := dictInsert dataAcc u.name entry.1
    if u.msg_type ∈ acceptedMsgTypes then
      assemblePayloadAux output_folder stamp rest dataAcc
        (dictInsert labelsAcc u.name u.labeler.labels) (fileAcc ++ entry.2)
    else
      .error "Unknown message type."

/-- The payload-assembly phase of `saveCollection`, starting from empty
dictionaries. -/
def assemblePayload (output_folder : String) (stamp : Nat)
    (units : List SensorUnit) :
    Except String
      (List (String × List (String × String)) ×
       List (String × List String) × List String) :=
  assemblePayloadAux output_folder stamp units [] [] []

/-- How one capture attempt ends.  `rejected` is `return None` after the
temporal audit fails (a warning was logged); `saved` is the normal fall
through the end of `saveCollection` with one collection committed;
`error` is a Python exception propagating out of `saveCollection`. -/
inductive CaptureOutcome where
  | rejected
  | saved
  | error (e : String)
deriving DecidableEq, Repr

/-- The observable result of one `saveCollection` call: the outcome, the
collector state afterwards (including every labeler's lock flag), the
warnings logged via `rospy.logwarn` and the image files written. -/
structure CaptureResult where
  outcome : CaptureOutcome
  state : CollectorState
  warnings : List String
  written : List String
deriving DecidableEq, Repr

/-- Steps 4-6 of a capture attempt (`saveCollection` after the temporal
audit): resolve every abstract transform at `average_time`, assemble the
payload, commit `self.collections[self.data_stamp] = collection_dict;
self.data_stamp += 1`, serialize, and unlock.  The two failing phases raise
out of `saveCollection` with every lock still held (there is no
`try/finally` around them). -/
def resolveAndCommit (look : TfLookup) (average_time : Nat)
    (s : CollectorState) : CaptureResult :=
  match getTransforms look average_time s.abstract_transforms with
  | .error e => { outcome := .error e, state := s, warnings := [], written := [] }
  | .ok transforms =>
    match assemblePayload s.output_folder s.data_stamp s.units with
    | .error e => { outcome := .error e, state := s, warnings := [], written := [] }
    | .ok (dataDict, labelsDict, files) =>
      let collection_dict : Collection :=
        { data := dataDict, labels := labelsDict, transforms := transforms }
      let s' := { s with
        collections := dictInsert s.collections s.data_stamp collection_dict,
        data_stamp := s.data_stamp + 1 }
      { outcome := .saved, state := unlockAllLabelers s', warnings := [], written := files }

/-- Embeds `DataCollectorAndLabeler.saveCollection`: lock all labelers,
audit timestamps, reject (with a warning, unlocking) when `max_delta` is
defined and exceeds `float(self.config['max_duration_bekween_msgs'])`,
otherwise resolve transforms and commit. -/
def saveCollection (look : TfLookup) (s0 : CollectorState) : CaptureResult :=
  let s := lockAllLabelers s0
  let stats := getLabelersTimeStatistics s.units
  match stats.2.2 with
  | some d =>
    if s.max_duration_bekween_msgs < d then
      { outcome := .rejected
        state := unlockAllLabelers s
        warnings := ["Max duration between msgs in collection is too large. Not saving collection."]
        written := [] }
    else
      resolveAndCommit look stats.2.1 s
  | none => resolveAndCommit look stats.2.1 s

/-- The adjacent `(parent, child)` pairs along one resolved chain, each with
its `generateKey` edge key — the loop `for idx in range(0, len(chain) - 1)`
of `getAllAbstractTransforms` (and, equivalently, the
`zip(chain[0::], chain[1::])` loop of `__init__`). -/
def chainEdges : List String → List TransformEdge
  | [] => []
  | [_] => []
  | a :: b :: rest => ⟨a, b, generateKey a b⟩ :: chainEdges (b :: rest)

/-- The frame loop of `getAllAbstractTransforms`: for each known frame,
resolve the chain to the world link (`waitForTransform` + `chain`); a `tf`
exception (`none`) skips the frame (`continue` after `rospy.logerr`), a
resolved chain contributes all its adjacent edges. -/
def collectChainEdges (resolveChain : String → Option (List String)) :
    List String → List TransformEdge
  | [] => []
  | frame :: rest =>
    (match resolveChain frame with
     | none => []
     | some chain => chainEdges chain) ++ collectChainEdges resolveChain rest

/-- The deduplication step of `getAllAbstractTransforms`:
`list(map(dict, frozenset(frozenset(i.items()) for i in transforms_list)))`
removes exactly the records that are equal as dictionaries, i.e. equal
`(parent, child, key)` triples.  A `frozenset` has no specified order; the
keep-last-occurrence order used here is one faithful linearization, and
every property proved about the result is order-insensitive. -/
def dedupRecords : List TransformEdge → List TransformEdge
  | [] => []
  | e :: rest => if e ∈ rest then dedupRecords rest else e :: dedupRecords rest

/-- Embeds `DataCollectorAndLabeler.getAllAbstractTransforms`, with the
listener's `getFrameStrings()` result and its chain resolution passed in
explicitly. -/
def getAllAbstractTransforms (all_frames : List String)
    (resolveChain : String → Option (List String)) : List TransformEdge :=
  dedupRecords (collectChainEdges resolveChain all_frames)

/-- The constructor arguments read by `__init__` (`args['output_folder']`,
`args['calibration_file']`, `args['marker_size']`). -/
structure Args where
  output_folder : String
  calibration_file : String
  marker_size : Nat
deriving DecidableEq, Repr

/-- How a `DataCollectorAndLabeler.__init__` call ends: either the process
terminates (Python `exit(code)`) or a collector state is constructed. -/
inductive InitResult where
  | exited (code : Nat)
  | constructed (s : CollectorState)
deriving DecidableEq, Repr

/-- Embeds `DataCollectorAndLabeler.__init__` as shipped: its first three
statements are `interactive = sys.stdin.isatty() and sys.stdout.isatty()`,
a print of that flag, and an unconditional `exit(0)`, so construction
terminates the process with status 0 before reading the configuration,
registering any sensor, or computing abstract transforms (everything from
the output-folder check at line 53 through line 165 is unreachable; a
second unconditional `exit(0)` sits at line 87). -/
def init (_args : Args) : InitResult :=
  .exited 0

/-- One sensor entry of the calibration configuration
(`self.config['sensors'][sensor_key]`). -/
structure SensorConfig where
  name : String
  link : String
  parent_link : String
  child_link : String
  topic_name : String
deriving DecidableEq, Repr

/-- The sensor dictionary built by the (unreachable) registration loop of
`__init__`, lines 111-160. -/
structure SensorDescriptor where
  name : String
  parent : String
  calibration_parent : String
  calibration_child : String
  topic : String
  msg_type : String
  camera_info : Option (List (String × String))
  chain : List TransformEdge
deriving DecidableEq, Repr

/-- The registration loop of `__init__` (lines 111-160, unreachable behind
the `exit(0)` calls): for each configured sensor, determine the message
type from one received message (`topicTypeOf`), fetch `camera_info` when
the type is `Image` (`camInfoOf`), compute the kinematic chain from the
sensor link to the world link (`chainOf`, assumed to succeed — a failure
here aborts startup), and insert the descriptor into `self.sensors` keyed
by sensor name. -/
def registerSensors (topicTypeOf : String → String)
    (camInfoOf : String → List (String × String))
    (chainOf : String → List String) :
    List SensorConfig → List (String × SensorDescriptor) →
    List (String × SensorDescriptor)
  | [], registry => registry
  | cfg :: rest, registry =>
    let msg_type := topicTypeOf cfg.topic_name
    let descriptor : SensorDescriptor :=
      { name := cfg.name
        parent := cfg.link
        calibration_parent := cfg.parent_link
        calibration_child := cfg.child_link
        topic := cfg.topic_name
        msg_type := msg_type
        camera_info := if msg_type = "Image" then some (camInfoOf cfg.topic_name) else none
        chain := chainEdges (chainOf cfg.link) }
    registerSensors topicTypeOf camInfoOf chainOf rest
      (dictInsert registry cfg.name descriptor)

/-- Decides whether an `Except` models a raised Python exception. -/
def isError {α : Type} : Except String α → Bool
  | .error _ => true
  | .ok _ => false

/-- The dataset-keying invariant of the claim set: the collection keys are
exactly `0, 1, ..., data_stamp - 1`, in insertion order. -/
abbrev goodState (s : CollectorState) : Prop :=
  dictKeys s.collections = List.range s.data_stamp

/-! Concrete inputs used by counterexamples and witnesses. -/

/-- Sample constructor arguments. -/
def sampleArgs : Args :=
  { output_folder := "out", calibration_file := "calibration.yaml", marker_size := 1 }

/-- A transform lookup that always resolves. -/
def okLook : TfLookup := fun _ _ _ => some ([1], [0])

/-- A transform lookup that always raises a `tf` exception. -/
def failLook : TfLookup := fun _ _ _ => none

/-- An Image sensor whose labeler holds a message stamped 1000. -/
def camA : SensorUnit :=
  ⟨"camA", "Image", ⟨false, ⟨1000, [("header", "h"), ("data", "px")]⟩, ["l1"]⟩⟩

/-- A LaserScan sensor whose labeler holds a message stamped 1005. -/
def scanB : SensorUnit :=
  ⟨"scanB", "LaserScan", ⟨false, ⟨1005, [("ranges", "r")]⟩, ["l2"]⟩⟩

/-- A sensor publishing the legacy `sensor_msgs/PointCloud` message type. -/
def pointCloudUnit : SensorUnit :=
  ⟨"pc", "PointCloud", ⟨false, ⟨0, []⟩, []⟩⟩

/-- A collector with a single LaserScan sensor, one abstract transform and an
empty dataset. -/
def singleSensorState : CollectorState :=
  { units := [scanB]
    data_stamp := 0
    collections := []
    abstract_transforms := [⟨"x", "y", generateKey "x" "y"⟩]
    max_duration_bekween_msgs := 1
    output_folder := "out" }

/-- A collector with a single PointCloud sensor and no abstract transforms. -/
def pointCloudState : CollectorState :=
  { units := [pointCloudUnit]
    data_stamp := 0
    collections := []
    abstract_transforms := []
    max_duration_bekween_msgs := 1
    output_folder := "out" }

/-- Two sensors stamped 1000.000 s and 1000.300 s (in milliseconds) against a
threshold of 0.100 s: the temporal audit must reject. -/
def skewedState : CollectorState :=
  { units := [⟨"camX", "Image", ⟨false, ⟨1000000, [("data", "px")]⟩, ["l1"]⟩⟩,
              ⟨"scanY", "LaserScan", ⟨false, ⟨1000300, [("ranges", "r")]⟩, ["l2"]⟩⟩]
    data_stamp := 0
    collections := []
    abstract_transforms := []
    max_duration_bekween_msgs := 100
    output_folder := "out" }

/-- Two well-synchronized sensors (spread 5 against threshold 100) over an
empty dataset. -/
def syncedState : CollectorState :=
  { units := [camA, scanB]
    data_stamp := 0
    collections := []
    abstract_transforms := [⟨"x", "y", generateKey "x" "y"⟩]
    max_duration_bekween_msgs := 100
    output_folder := "out" }

/-- Frames whose names contain the key separator. -/
def collisionFrames : List String := ["a-b", "a"]

/-- A chain resolution under which two distinct edges get the same key:
frame `a-b` resolves to the chain `[a-b, c]` and frame `a` to
`[a, b-c]`. -/
def collisionResolve : String → Option (List String) := fun f =>
  if f = "a-b" then some ["a-b", "c"]
  else if f = "a" then some ["a", "b-c"]
  else none

/-! Helper lemmas about the dictionary model, list maxima, and
deduplication. -/

theorem dictKeys_nil {κ α : Type} : dictKeys ([] : List (κ × α)) = [] := rfl

theorem dictKeys_cons {κ α : Type} (p : κ × α) (d : List (κ × α)) :
    dictKeys (p :: d) = p.1 :: dictKeys d := rfl

theorem dictKeys_append {κ α : Type} (d d' : List (κ × α)) :
    dictKeys (d ++ d') = dictKeys d ++ dictKeys d' := by
  simp [dictKeys]

theorem dictInsert_eq_append {κ α : Type} [DecidableEq κ] (d : List (κ × α))
    (k : κ) (v : α) (h : k ∉ dictKeys d) : dictInsert d k v = d ++ [(k, v)] := by
  induction d with
  | nil => rfl
  | cons p rest ih =>
    obtain ⟨k', v'⟩ := p
    rw [dictKeys_cons, List.mem_cons, not_or] at h
    rw [dictInsert, if_neg fun hk => h.1 hk.symm, ih h.2, List.cons_append]

theorem le_foldl_max (l : List Nat) : ∀ a : Nat, a ≤ l.foldl max a := by
  induction l with
  | nil => intro a; exact Nat.le_refl a
  | cons h t ih =>
    intro a
    exact Nat.le_trans (Nat.le_max_left a h) (ih (max a h))

theorem foldl_max_le_of_mem (l : List Nat) :
    ∀ (a x : Nat), x ∈ l → x ≤ l.foldl max a := by
  induction l with
  | nil => intro a x hx; exact absurd hx (List.not_mem_nil x)
  | cons h t ih =>
    intro a x hx
    rcases List.mem_cons.mp hx with rfl | hx
    · exact Nat.le_trans (Nat.le_max_right a x) (le_foldl_max t (max a x))
    · exact ih (max a h) x hx

theorem foldl_max_eq_or_mem (l : List Nat) :
    ∀ a : Nat, l.foldl max a = a ∨ l.foldl max a ∈ l := by
  induction l with
  | nil => intro a; exact Or.inl rfl
  | cons h t ih =>
    intro a
    rcases ih (max a h) with heq | hmem
    · rcases Nat.le_total a h with hah | hha
      · right
        rw [List.foldl_cons, heq, Nat.max_eq_right hah]
        exact List.mem_cons_self h t
      · left
        rw [List.foldl_cons, heq, Nat.max_eq_left hha]
    · right
      exact List.mem_cons_of_mem h hmem

theorem foldl_max_zero_mem (l : List Nat) (h : l ≠ []) : l.foldl max 0 ∈ l := by
  rcases foldl_max_eq_or_mem l 0 with heq | hmem
  · cases l with
    | nil => exact absurd rfl h
    | cons x t =>
      have hx : x ≤ (x :: t).foldl max 0 :=
        foldl_max_le_of_mem (x :: t) 0 x (List.mem_cons_self x t)
      rw [heq] at hx
      rw [heq, Nat.le_zero.mp hx]
      exact List.mem_cons_self 0 t
  · exact hmem

theorem mem_dedupRecords (a : TransformEdge) :
    ∀ l : List TransformEdge, a ∈ dedupRecords l ↔ a ∈ l := by
  intro l
  induction l with
  | nil => exact Iff.rfl
  | cons e rest ih =>
    by_cases he : e ∈ rest
    · rw [dedupRecords, if_pos he, ih, List.mem_cons]
      constructor
      · exact Or.inr
      · rintro (rfl | hmem)
        · exact he
        · exact hmem
    · rw [dedupRecords, if_neg he, List.mem_cons, List.mem_cons, ih]

theorem dedupRecords_nodup : ∀ l : List TransformEdge, (dedupRecords l).Nodup := by
  intro l
  induction l with
  | nil => exact List.nodup_nil
  | cons e rest ih =>
    by_cases he : e ∈ rest
    · rw [dedupRecords, if_pos he]; exact ih
    · rw [dedupRecords, if_neg he]
      exact List.Nodup.cons (fun hmem => he ((mem_dedupRecords e rest).mp hmem)) ih

/-! Helper lemmas about locking, the commit phase and payload assembly. -/

@[simp] theorem lockAllLabelers_collections (s : CollectorState) :
    (lockAllLabelers s).collections = s.collections := rfl

@[simp] theorem lockAllLabelers_data_stamp (s : CollectorState) :
    (lockAllLabelers s).data_stamp = s.data_stamp := rfl

@[simp] theorem lockAllLabelers_max_duration (s : CollectorState) :
    (lockAllLabelers s).max_duration_bekween_msgs = s.max_duration_bekween_msgs := rfl

@[simp] theorem unlockAllLabelers_collections (s : CollectorState) :
    (unlockAllLabelers s).collections = s.collections := rfl

@[simp] theorem unlockAllLabelers_data_stamp (s : CollectorState) :
    (unlockAllLabelers s).data_stamp = s.data_stamp := rfl

theorem lockAllLabelers_stamps (s : CollectorState) :
    (lockAllLabelers s).units.map (fun u => u.labeler.msg.stamp) =
      s.units.map (fun u => u.labeler.msg.stamp) := by
  show (s.units.map _).map _ = _
  rw [List.map_map]
  rfl

theorem lockAllLabelers_units_length (s : CollectorState) :
    (lockAllLabelers s).units.length = s.units.length := by
  show (s.units.map _).length = _
  rw [List.length_map]

theorem unlockAllLabelers_all_unlocked (s : CollectorState) :
    ((unlockAllLabelers s).units.all fun u => !u.labeler.locked) = true := by
  show (s.units.map _).all _ = true
  rw [List.all_map]
  exact List.all_eq_true.mpr fun u _ => rfl

theorem resolveAndCommit_ne_rejected (look : TfLookup) (t : Nat) (s : CollectorState) :
    (resolveAndCommit look t s).outcome ≠ CaptureOutcome.rejected := by
  unfold resolveAndCommit
  cases hT : getTransforms look t s.abstract_transforms with
  | error e => exact fun h => CaptureOutcome.noConfusion h
  | ok transforms =>
    cases hP : assemblePayload s.output_folder s.data_stamp s.units with
    | error e => exact fun h => CaptureOutcome.noConfusion h
    | ok triple =>
      obtain ⟨d, l, f⟩ := triple
      exact fun h => CaptureOutcome.noConfusion h

theorem resolveAndCommit_spec (look : TfLookup) (t : Nat) (s : CollectorState)
    (hg : dictKeys s.collections = List.range s.data_stamp) :
    dictKeys (resolveAndCommit look t s).state.collections =
        List.range (resolveAndCommit look t s).state.data_stamp ∧
    ((resolveAndCommit look t s).outcome = CaptureOutcome.saved →
      (resolveAndCommit look t s).state.data_stamp = s.data_stamp + 1 ∧
      dictKeys (resolveAndCommit look t s).state.collections =
        List.range (s.data_stamp + 1) ∧
      (resolveAndCommit look t s).state.collections.length = s.collections.length + 1) := by
  unfold resolveAndCommit
  cases hT : getTransforms look t s.abstract_transforms with
  | error e => exact ⟨hg, fun h => absurd h (fun h => CaptureOutcome.noConfusion h)⟩
  | ok transforms =>
    cases hP : assemblePayload s.output_folder s.data_stamp s.units with
    | error e => exact ⟨hg, fun h => absurd h (fun h => CaptureOutcome.noConfusion h)⟩
    | ok triple =>
      obtain ⟨dataDict, labelsDict, files⟩ := triple
      have hnot : s.data_stamp ∉ dictKeys s.collections := by
        rw [hg, List.mem_range]
        exact Nat.lt_irrefl s.data_stamp
      have hins := dictInsert_eq_append s.collections s.data_stamp
        (⟨dataDict, labelsDict, transforms⟩ : Collection) hnot
      have hkeys : dictKeys (dictInsert s.collections s.data_stamp
          (⟨dataDict, labelsDict, transforms⟩ : Collection)) =
          List.range (s.data_stamp + 1) := by
        rw [hins, dictKeys_append, hg, List.range_succ]
        rfl
      have hlen : (dictInsert s.collections s.data_stamp
          (⟨dataDict, labelsDict, transforms⟩ : Collection)).length =
          s.collections.length + 1 := by
        rw [hins, List.length_append]
        rfl
      exact ⟨hkeys, fun _ => ⟨rfl, hkeys, hlen⟩⟩

theorem assemblePayloadAux_error_iff (output_folder : String) (stamp : Nat) :
    ∀ (units : List SensorUnit) dataAcc labelsAcc fileAcc,
      isError (assemblePayloadAux output_folder stamp units dataAcc labelsAcc fileAcc) = true ↔
        ∃ u ∈ units, u.msg_type ∉ acceptedMsgTypes := by
  intro units
  induction units with
  | nil =>
    intro dataAcc labelsAcc fileAcc
    simp [assemblePayloadAux, isError]
  | cons u rest ih =>
    intro dataAcc labelsAcc fileAcc
    by_cases hk : u.msg_type ∈ acceptedMsgTypes
    · rw [assemblePayloadAux]
      simp only [if_pos hk, ih]
      constructor
      · rintro ⟨v, hv, hvk⟩
        exact ⟨v, List.mem_cons_of_mem u hv, hvk⟩
      · rintro ⟨v, hv, hvk⟩
        rcases List.mem_cons.mp hv with rfl | hv
        · exact absurd hk hvk
        · exact ⟨v, hv, hvk⟩
    · rw [assemblePayloadAux]
      simp only [if_neg hk, isError, true_iff]
      exact ⟨u, List.mem_cons_self u rest, hk⟩

theorem assemblePayloadAux_ok (output_folder : String) (stamp : Nat) :
    ∀ (units : List SensorUnit) dataAcc labelsAcc fileAcc,
      (∀ u ∈ units, u.msg_type ∈ acceptedMsgTypes) →
      (∀ u ∈ units, u.name ∉ dictKeys dataAcc) →
      (∀ u ∈ units, u.name ∉ dictKeys labelsAcc) →
      (units.map SensorUnit.name).Nodup →
      assemblePayloadAux output_folder stamp units dataAcc labelsAcc fileAcc =
        .ok (dataAcc ++ units.map (fun u => (u.name, (sensorDataEntry output_folder stamp u).1)),
             labelsAcc ++ units.map (fun u => (u.name, u.labeler.labels)),
             fileAcc ++ units.flatMap (fun u => (sensorDataEntry output_folder stamp u).2)) := by
  intro units
  induction units with
  | nil =>
    intro dataAcc labelsAcc fileAcc _ _ _ _
    simp [assemblePayloadAux]
  | cons u rest ih =>
    intro dataAcc labelsAcc fileAcc hk hd hl hn
    have hu : u.msg_type ∈ acceptedMsgTypes := hk u (List.mem_cons_self u rest)
    have hdu : u.name ∉ dictKeys dataAcc := hd u (List.mem_cons_self u rest)
    have hlu : u.name ∉ dictKeys labelsAcc := hl u (List.mem_cons_self u rest)
    have hn' : (List.map SensorUnit.name (u :: rest)).Nodup := hn
    rw [List.map_cons, List.nodup_cons] at hn'
    have hdis : ∀ v ∈ rest,
        v.name ∉ dictKeys (dataAcc ++ [(u.name, (sensorDataEntry output_folder stamp u).1)]) := by
      intro v hv
      rw [dictKeys_append, List.mem_append, not_or]
      refine ⟨hd v (List.mem_cons_of_mem u hv), ?_⟩
      intro hmem
      have hvu : v.name = u.name := by
        rcases List.mem_cons.mp hmem with h | h
        · exact h
        · exact absurd h (List.not_mem_nil _)
      exact hn'.1 (hvu ▸ List.mem_map_of_mem SensorUnit.name hv)
    have hldis : ∀ v ∈ rest,
        v.name ∉ dictKeys (labelsAcc ++ [(u.name, u.labeler.labels)]) := by
      intro v hv
      rw [dictKeys_append, List.mem_append, not_or]
      refine ⟨hl v (List.mem_cons_of_mem u hv), ?_⟩
      intro hmem
      have hvu : v.name = u.name := by
        rcases List.mem_cons.mp hmem with h | h
        · exact h
        · exact absurd h (List.not_mem_nil _)
      exact hn'.1 (hvu ▸ List.mem_map_of_mem SensorUnit.name hv)
    rw [assemblePayloadAux]
    simp only [if_pos hu]
    rw [dictInsert_eq_append dataAcc u.name _ hdu,
        dictInsert_eq_append labelsAcc u.name _ hlu,
        ih _ _ _ (fun v hv => hk v (List.mem_cons_of_mem u hv)) hdis hldis hn'.2]
    simp [List.append_assoc]

theorem sensorDataEntry_fst (output_folder : String) (stamp : Nat) (u : SensorUnit) :
    (sensorDataEntry output_folder stamp u).1 =
      if u.msg_type = "Image" then
        dictInsert (dictErase u.labeler.msg.fields "data") "data_file"
          (u.name ++ "_" ++ toString stamp ++ ".jpg")
      else u.labeler.msg.fields := by
  by_cases h : u.msg_type = "Image" <;>
    simp [sensorDataEntry, convertRosMessageToDictionary, h]

theorem bind_sensorDataEntry_snd (output_folder : String) (stamp : Nat)
    (units : List SensorUnit) :
    units.flatMap (fun u => (sensorDataEntry output_folder stamp u).2) =
      (units.filter (fun u => u.msg_type == "Image")).map
        (fun u => output_folder ++ "/" ++ u.name ++ "_" ++ toString stamp ++ ".jpg") := by
  induction units with
  | nil => rfl
  | cons u rest ih =>
    rw [List.flatMap_cons, ih, List.filter_cons]
    by_cases h : u.msg_type = "Image" <;>
      simp [sensorDataEntry, h]

theorem saveCollection_eq (look : TfLookup) (s : CollectorState) :
    saveCollection look s =
      match (getLabelersTimeStatistics (lockAllLabelers s).units).2.2 with
      | some d =>
        if (lockAllLabelers s).max_duration_bekween_msgs < d then
          { outcome := CaptureOutcome.rejected
            state := unlockAllLabelers (lockAllLabelers s)
            warnings := ["Max duration between msgs in collection is too large. Not saving collection."]
            written := [] }
        else
          resolveAndCommit look (getLabelersTimeStatistics (lockAllLabelers s).units).2.1
            (lockAllLabelers s)
      | none =>
        resolveAndCommit look (getLabelersTimeStatistics (lockAllLabelers s).units).2.1
          (lockAllLabelers s) := rfl

/-! The claims. -/

/-- C1: the claim states that every exit path of the capture operation
(`saveCollection`) — temporal rejection, transform-resolution failure and
unsupported-message-kind failure alike — releases every labeler's lock
before returning.  The code violates it: evaluated at a state whose single
abstract transform fails to resolve, and at a state holding a legacy
`PointCloud` sensor, the capture ends in a propagating exception with every
labeler still locked, because no `try/finally` surrounds transform
resolution or payload assembly (only the temporal-rejection and success
paths call `unlockAllLabelers`). -/
theorem saveCollection_failure_paths_keep_locks :
    (saveCollection failLook singleSensorState).outcome =
        CaptureOutcome.error ("tf exception looking up " ++ generateKey "x" "y") ∧
    ((saveCollection failLook singleSensorState).state.units.all
        fun u => u.labeler.locked) = true ∧
    (saveCollection okLook pointCloudState).outcome =
        CaptureOutcome.error "Unknown message type." ∧
    ((saveCollection okLook pointCloudState).state.units.all
        fun u => u.labeler.locked) = true := by
  exact ⟨rfl, rfl, rfl, rfl⟩

/-- C2: the claim states that constructing the collector registers every
configured sensor and then computes the abstract transform set before any
capture occurs.  The code violates it: `__init__` executes an unconditional
`exit(0)` as its third statement, terminating the process with status 0
before reading the configuration or registering anything; the registration
loop (modelled by `registerSensors`) and the
`getAllAbstractTransforms` call are unreachable. -/
theorem init_exits_before_any_registration :
    init sampleArgs = InitResult.exited 0 := rfl

/-- C3: a capture attempt whose `maxDelta` is defined (two or more sensors)
and exceeds the configured threshold is rejected as a normal outcome (not
an exception), a warning is emitted, and the collection mapping and the
`data_stamp` counter are unchanged; every labeler ends unlocked. -/
theorem saveCollection_rejects_on_skew (look : TfLookup) (s : CollectorState)
    (delta : Nat)
    (hdelta : getMaxTimeDelta (s.units.map fun u => u.labeler.msg.stamp) = some delta)
    (hgt : s.max_duration_bekween_msgs < delta) :
    (saveCollection look s).outcome = CaptureOutcome.rejected ∧
    (saveCollection look s).warnings ≠ [] ∧
    (saveCollection look s).state.collections = s.collections ∧
    (saveCollection look s).state.data_stamp = s.data_stamp ∧
    ((saveCollection look s).state.units.all fun u => !u.labeler.locked) = true := by
  have hstat : (getLabelersTimeStatistics (lockAllLabelers s).units).2.2 = some delta := by
    show getMaxTimeDelta ((lockAllLabelers s).units.map fun u => u.labeler.msg.stamp) =
      some delta
    rw [lockAllLabelers_stamps]
    exact hdelta
  have hres : saveCollection look s =
      { outcome := CaptureOutcome.rejected
        state := unlockAllLabelers (lockAllLabelers s)
        warnings := ["Max duration between msgs in collection is too large. Not saving collection."]
        written := [] } := by
    rw [saveCollection_eq, hstat]
    exact if_pos hgt
  rw [hres]
  exact ⟨rfl, fun h => List.noConfusion h, rfl, rfl,
    unlockAllLabelers_all_unlocked (lockAllLabelers s)⟩

/-- C3 witness: two sensors stamped 1000.000 s and 1000.300 s against a
threshold of 0.100 s are rejected with the dataset untouched. -/
theorem saveCollection_rejects_on_skew_witness :
    (getMaxTimeDelta (skewedState.units.map fun u => u.labeler.msg.stamp) = some 300 ∧
     skewedState.max_duration_bekween_msgs < 300) ∧
    ((saveCollection okLook skewedState).outcome = CaptureOutcome.rejected ∧
     (saveCollection okLook skewedState).warnings ≠ [] ∧
     (saveCollection okLook skewedState).state.collections = skewedState.collections ∧
     (saveCollection okLook skewedState).state.data_stamp = skewedState.data_stamp ∧
     ((saveCollection okLook skewedState).state.units.all fun u => !u.labeler.locked) = true) :=
  ⟨⟨by decide, by decide⟩,
   saveCollection_rejects_on_skew okLook skewedState 300 (by decide) (by decide)⟩

/-- C4: starting from a dataset whose collection keys are exactly
`0, ..., data_stamp - 1`, every capture attempt preserves that gap-free
shape, and a capture that commits (`saved` outcome: timestamps within
threshold, all transforms resolved, all kinds supported) appends exactly
one collection keyed by the old `data_stamp` — the previous highest stamp
plus one, `0` for the first — and increments the counter, so stamps are
never reused. -/
theorem saveCollection_commit_fresh_stamp (look : TfLookup) (s : CollectorState)
    (hg : goodState s) :
    goodState (saveCollection look s).state ∧
    ((saveCollection look s).outcome = CaptureOutcome.saved →
      (saveCollection look s).state.data_stamp = s.data_stamp + 1 ∧
      dictKeys (saveCollection look s).state.collections = List.range (s.data_stamp + 1) ∧
      (saveCollection look s).state.collections.length = s.collections.length + 1) := by
  rw [saveCollection_eq]
  have hg' : dictKeys (lockAllLabelers s).collections =
      List.range (lockAllLabelers s).data_stamp := hg
  cases hstat : (getLabelersTimeStatistics (lockAllLabelers s).units).2.2 with
  | none =>
    have h := resolveAndCommit_spec look
      (getLabelersTimeStatistics (lockAllLabelers s).units).2.1 (lockAllLabelers s) hg'
    exact ⟨h.1, h.2⟩
  | some d =>
    dsimp only
    by_cases hlt : (lockAllLabelers s).max_duration_bekween_msgs < d
    · rw [if_pos hlt]
      exact ⟨hg, fun h => absurd h (fun h => CaptureOutcome.noConfusion h)⟩
    · rw [if_neg hlt]
      have h := resolveAndCommit_spec look
        (getLabelersTimeStatistics (lockAllLabelers s).units).2.1 (lockAllLabelers s) hg'
      exact ⟨h.1, h.2⟩

/-- C4 witness: a well-synchronized two-sensor capture over an empty dataset
commits collection 0 and moves the counter to 1. -/
theorem saveCollection_commit_fresh_stamp_witness :
    goodState syncedState ∧
    (goodState (saveCollection okLook syncedState).state ∧
     ((saveCollection okLook syncedState).outcome = CaptureOutcome.saved →
       (saveCollection okLook syncedState).state.data_stamp = syncedState.data_stamp + 1 ∧
       dictKeys (saveCollection okLook syncedState).state.collections =
         List.range (syncedState.data_stamp + 1) ∧
       (saveCollection okLook syncedState).state.collections.length =
         syncedState.collections.length + 1)) :=
  ⟨by decide, saveCollection_commit_fresh_stamp okLook syncedState (by decide)⟩

/-- C5 counterexample: the claim states that payload assembly fails with
`UnsupportedMessageKind` iff a sensor's kind is outside
`{Image, LaserScan, PointCloud}` — in particular that kind `PointCloud` is
accepted.  The code compares against the literal list
`['Image', 'LaserScan', 'PointCloud2']`, so a sensor whose message type is
the legacy `PointCloud` — inside the claimed set — raises
`ValueError('Unknown message type.')`. -/
theorem pointCloud_kind_rejected :
    pointCloudUnit.msg_type ∈ ["Image", "LaserScan", "PointCloud"] ∧
    assemblePayload "out" 0 [pointCloudUnit] = .error "Unknown message type." :=
  ⟨by decide, rfl⟩

/-- C5 (amended): payload assembly fails with
`ValueError('Unknown message type.')` if and only if some sensor's message
type is outside `{Image, LaserScan, PointCloud2}`; in particular
`PointCloud2` is accepted and the legacy `PointCloud` is not. -/
theorem assemblePayload_error_iff_kind_unsupported (output_folder : String)
    (stamp : Nat) (units : List SensorUnit) :
    isError (assemblePayload output_folder stamp units) = true ↔
      ∃ u ∈ units, u.msg_type ∉ acceptedMsgTypes :=
  assemblePayloadAux_error_iff output_folder stamp units [] [] []

/-- C6 counterexample: the claim states that transform-set discovery never
returns two elements sharing an edge key, for every topology.  With frame
names containing the key separator `-`, the chains `[a-b, c]` and
`[a, b-c]` yield two distinct records whose keys are both `a-b-c`, and the
`frozenset` deduplication (whole-record equality) keeps both. -/
theorem getAllAbstractTransforms_shared_key :
    getAllAbstractTransforms collisionFrames collisionResolve =
      [⟨"a-b", "c", "a-b-c"⟩, ⟨"a", "b-c", "a-b-c"⟩] ∧
    (⟨"a-b", "c", "a-b-c"⟩ : TransformEdge) ≠ ⟨"a", "b-c", "a-b-c"⟩ ∧
    TransformEdge.key ⟨"a-b", "c", "a-b-c"⟩ = TransformEdge.key ⟨"a", "b-c", "a-b-c"⟩ :=
  ⟨rfl, by decide, rfl⟩

/-- C6 (amended): for every set of known frames and every chain topology,
`getAllAbstractTransforms` returns a set with no duplicate records — no two
elements share the same `(parent, child, key)` triple, however many
sensors' chains overlap; edge keys themselves are only guaranteed distinct
when `generateKey` does not collide (e.g. when frame names avoid `-`). -/
theorem getAllAbstractTransforms_nodup_records (all_frames : List String)
    (resolveChain : String → Option (List String)) :
    (getAllAbstractTransforms all_frames resolveChain).Nodup :=
  dedupRecords_nodup _

/-- C7: the representative capture time that `saveCollection` passes to
`getTransforms` — the second component returned by
`getLabelersTimeStatistics` — is the maximum of the timestamps of the
messages held by the labelers (an upper bound that is attained), not their
average: the `getAverageTime` call is commented out in favour of
`getMaxTime`. -/
theorem captureTime_is_max_of_stamps (units : List SensorUnit) (h : units ≠ []) :
    (∀ u ∈ units, u.labeler.msg.stamp ≤ (getLabelersTimeStatistics units).2.1) ∧
    ∃ u ∈ units, u.labeler.msg.stamp = (getLabelersTimeStatistics units).2.1 := by
  constructor
  · intro u hu
    exact foldl_max_le_of_mem (units.map fun u => u.labeler.msg.stamp) 0 _
      (List.mem_map_of_mem _ hu)
  · have hmem := foldl_max_zero_mem (units.map fun u => u.labeler.msg.stamp)
      (by simpa using h)
    rcases List.mem_map.mp hmem with ⟨u, hu, heq⟩
    exact ⟨u, hu, heq⟩

/-- C7 witness: for the two sample sensors stamped 1000 and 1005, the
capture time is 1005, attained by `scanB`. -/
theorem captureTime_is_max_of_stamps_witness :
    ([camA, scanB] ≠ ([] : List SensorUnit)) ∧
    ((∀ u ∈ [camA, scanB],
        u.labeler.msg.stamp ≤ (getLabelersTimeStatistics [camA, scanB]).2.1) ∧
     ∃ u ∈ [camA, scanB],
        u.labeler.msg.stamp = (getLabelersTimeStatistics [camA, scanB]).2.1) :=
  ⟨by decide, captureTime_is_max_of_stamps [camA, scanB] (by decide)⟩

/-- C8: with exactly one configured sensor, `maxDelta` is undefined
(`getMaxTimeDelta` returns `none`), the temporal audit trivially passes,
and the capture attempt proceeds directly to transform resolution
(`resolveAndCommit`); in particular it is never rejected. -/
theorem single_sensor_passes_audit (look : TfLookup) (s : CollectorState)
    (h : s.units.length = 1) :
    saveCollection look s =
      resolveAndCommit look (getMaxTime (s.units.map fun u => u.labeler.msg.stamp))
        (lockAllLabelers s) ∧
    (saveCollection look s).outcome ≠ CaptureOutcome.rejected := by
  have hstat : (getLabelersTimeStatistics (lockAllLabelers s).units).2.2 = none := by
    show getMaxTimeDelta ((lockAllLabelers s).units.map fun u => u.labeler.msg.stamp) = none
    rw [lockAllLabelers_stamps]
    simp [getMaxTimeDelta, h]
  have ht : (getLabelersTimeStatistics (lockAllLabelers s).units).2.1 =
      getMaxTime (s.units.map fun u => u.labeler.msg.stamp) := by
    show getMaxTime ((lockAllLabelers s).units.map fun u => u.labeler.msg.stamp) = _
    rw [lockAllLabelers_stamps]
  have heq : saveCollection look s =
      resolveAndCommit look (getLabelersTimeStatistics (lockAllLabelers s).units).2.1
        (lockAllLabelers s) := by
    rw [saveCollection_eq, hstat]
  constructor
  · rw [heq, ht]
  · rw [heq]
    exact resolveAndCommit_ne_rejected look _ (lockAllLabelers s)

/-- C8 witness: the single-LaserScan collector passes the audit and proceeds
to transform resolution. -/
theorem single_sensor_passes_audit_witness :
    singleSensorState.units.length = 1 ∧
    (saveCollection okLook singleSensorState =
       resolveAndCommit okLook
         (getMaxTime (singleSensorState.units.map fun u => u.labeler.msg.stamp))
         (lockAllLabelers singleSensorState) ∧
     (saveCollection okLook singleSensorState).outcome ≠ CaptureOutcome.rejected) :=
  ⟨by decide, single_sensor_passes_audit okLook singleSensorState (by decide)⟩

/-- C9: in a successful payload assembly (all kinds supported, sensor names
unique), each Image sensor's record is its message dictionary with the raw
pixel field `data` removed and a `data_file` field holding the relative
path `<sensor_name>_<data_stamp>.jpg`, the image itself being written to
`<output_folder>/<sensor_name>_<data_stamp>.jpg`; every other sensor's
record inlines the full message dictionary, and the label dictionary keeps
each sensor's labels. -/
theorem assemblePayload_image_externalized (output_folder : String) (stamp : Nat)
    (units : List SensorUnit)
    (hk : ∀ u ∈ units, u.msg_type ∈ acceptedMsgTypes)
    (hn : (units.map SensorUnit.name).Nodup) :
    assemblePayload output_folder stamp units =
      .ok (units.map (fun u => (u.name,
             if u.msg_type = "Image" then
               dictInsert (dictErase u.labeler.msg.fields "data") "data_file"
                 (u.name ++ "_" ++ toString stamp ++ ".jpg")
             else u.labeler.msg.fields)),
           units.map (fun u => (u.name, u.labeler.labels)),
           (units.filter (fun u => u.msg_type == "Image")).map
             (fun u => output_folder ++ "/" ++ u.name ++ "_" ++ toString stamp ++ ".jpg")) := by
  rw [assemblePayload, assemblePayloadAux_ok output_folder stamp units [] [] [] hk
    (fun u _ => List.not_mem_nil u.name) (fun u _ => List.not_mem_nil u.name) hn]
  simp only [List.nil_append, sensorDataEntry_fst, bind_sensorDataEntry_snd,
    convertRosMessageToDictionary]

/-- C9 witness: for `camA` (Image, stamp 7 capture) and `scanB` (LaserScan),
the record externalizes `camA`'s image to `out/camA_7.jpg`, stores the
relative path `camA_7.jpg` under `data_file` with the `data` field removed,
and inlines `scanB`'s message. -/
theorem assemblePayload_image_externalized_witness :
    ((∀ u ∈ [camA, scanB], u.msg_type ∈ acceptedMsgTypes) ∧
     (([camA, scanB].map SensorUnit.name).Nodup)) ∧
    assemblePayload "out" 7 [camA, scanB] =
      .ok ([camA, scanB].map (fun u => (u.name,
             if u.msg_type = "Image" then
               dictInsert (dictErase u.labeler.msg.fields "data") "data_file"
                 (u.name ++ "_" ++ toString 7 ++ ".jpg")
             else u.labeler.msg.fields)),
           [camA, scanB].map (fun u => (u.name, u.labeler.labels)),
           ([camA, scanB].filter (fun u => u.msg_type == "Image")).map
             (fun u => "out" ++ "/" ++ u.name ++ "_" ++ toString 7 ++ ".jpg")) :=
  ⟨⟨by decide, by decide⟩,
   assemblePayload_image_externalized "out" 7 [camA, scanB] (by decide) (by decide)⟩

/-- C10: `generateKey` is not injective on frame-name pairs — the distinct
edges `(a-b, c)` and `(a, b-c)` both map to key `a-b-c` — and in the
transforms dictionary built by `getTransforms` the later edge's entry
overwrites the earlier one's: resolving both edges yields a single entry
holding the second edge's data. -/
theorem generateKey_not_injective_overwrite :
    generateKey "a-b" "c" = generateKey "a" "b-c" ∧
    (("a-b", "c") : String × String) ≠ ("a", "b-c") ∧
    getTransforms (fun p _ _ => some ([(p.length : Int)], [0])) 0
        [⟨"a-b", "c", generateKey "a-b" "c"⟩, ⟨"a", "b-c", generateKey "a" "b-c"⟩] =
      .ok [("a-b-c", ⟨[1], [0], "a", "b-c"⟩)] :=
  ⟨rfl, by decide, rfl⟩

end InteractiveCalibration
